import Mathlib

/-!
Verification of `src/implementors/core/ops/index/trait.Index.js`.

The artifact is an immediately-invoked function that builds an object
`implementors` mapping library identifiers to arrays of implementor records
(each a JavaScript object literal with fields "text", "synthetic", "types"),
and then either passes the object to `window.register_implementors` (when
that global is truthy and callable) or stores it in
`window.pending_implementors`.

We embed the JavaScript values shallowly: object literals become ordered
association lists over `String`, arrays become lists, and the single load
step becomes a function from a window state to an updated window state
together with the list of arguments passed to the registration hook, in an
`Except` to account for runtime errors.
-/

/-- A JavaScript value, as far as the artifact needs: strings, booleans,
arrays, and objects represented as insertion-ordered association lists. -/
inductive JsVal where
  | str : String → JsVal
  | boolean : Bool → JsVal
  | arr : List JsVal → JsVal
  | obj : List (String × JsVal) → JsVal
set_option maxRecDepth 100000
set_option maxHeartbeats 1000000
/-- The array literal assigned to the key "bytes" in the source. -/
def bytesRecords : List JsVal := [
  JsVal.obj [("text", JsVal.str "impl <a class=\"trait\" href=\"https://doc.rust-lang.org/nightly/core/ops/index/trait.Index.html\" title=\"trait core::ops::index::Index\">Index</a>&lt;<a class=\"struct\" href=\"https://doc.rust-lang.org/nightly/core/ops/range/struct.Range.html\" title=\"struct core::ops::range::Range\">Range</a>&lt;<a class=\"primitive\" href=\"https://doc.rust-lang.org/nightly/std/primitive.usize.html\">usize</a>&gt;&gt; for <a class=\"struct\" href=\"bytes/buf/struct.UninitSlice.html\" title=\"struct bytes::buf::UninitSlice\">UninitSlice</a>"),
    ("synthetic", JsVal.boolean false),
    ("types", JsVal.arr [JsVal.str "bytes::buf::uninit_slice::UninitSlice"])],
  JsVal.obj [("text", JsVal.str "impl <a class=\"trait\" href=\"https://doc.rust-lang.org/nightly/core/ops/index/trait.Index.html\" title=\"trait core::ops::index::Index\">Index</a>&lt;<a class=\"struct\" href=\"https://doc.rust-lang.org/nightly/core/ops/range/struct.RangeFrom.html\" title=\"struct core::ops::range::RangeFrom\">RangeFrom</a>&lt;<a class=\"primitive\" href=\"https://doc.rust-lang.org/nightly/std/primitive.usize.html\">usize</a>&gt;&gt; for <a class=\"struct\" href=\"bytes/buf/struct.UninitSlice.html\" title=\"struct bytes::buf::UninitSlice\">UninitSlice</a>"),
    ("synthetic", JsVal.boolean false),
    ("types", JsVal.arr [JsVal.str "bytes::buf::uninit_slice::UninitSlice"])],
  JsVal.obj [("text", JsVal.str "impl <a class=\"trait\" href=\"https://doc.rust-lang.org/nightly/core/ops/index/trait.Index.html\" title=\"trait core::ops::index::Index\">Index</a>&lt;<a class=\"struct\" href=\"https://doc.rust-lang.org/nightly/core/ops/range/struct.RangeFull.html\" title=\"struct core::ops::range::RangeFull\">RangeFull</a>&gt; for <a class=\"struct\" href=\"bytes/buf/struct.UninitSlice.html\" title=\"struct bytes::buf::UninitSlice\">UninitSlice</a>"),
    ("synthetic", JsVal.boolean false),
    ("types", JsVal.arr [JsVal.str "bytes::buf::uninit_slice::UninitSlice"])],
  JsVal.obj [("text", JsVal.str "impl <a class=\"trait\" href=\"https://doc.rust-lang.org/nightly/core/ops/index/trait.Index.html\" title=\"trait core::ops::index::Index\">Index</a>&lt;<a class=\"struct\" href=\"https://doc.rust-lang.org/nightly/core/ops/range/struct.RangeInclusive.html\" title=\"struct core::ops::range::RangeInclusive\">RangeInclusive</a>&lt;<a class=\"primitive\" href=\"https://doc.rust-lang.org/nightly/std/primitive.usize.html\">usize</a>&gt;&gt; for <a class=\"struct\" href=\"bytes/buf/struct.UninitSlice.html\" title=\"struct bytes::buf::UninitSlice\">UninitSlice</a>"),
    ("synthetic", JsVal.boolean false),
    ("types", JsVal.arr [JsVal.str "bytes::buf::uninit_slice::UninitSlice"])],
  JsVal.obj [("text", JsVal.str "impl <a class=\"trait\" href=\"https://doc.rust-lang.org/nightly/core/ops/index/trait.Index.html\" title=\"trait core::ops::index::Index\">Index</a>&lt;<a class=\"struct\" href=\"https://doc.rust-lang.org/nightly/core/ops/range/struct.RangeTo.html\" title=\"struct core::ops::range::RangeTo\">RangeTo</a>&lt;<a class=\"primitive\" href=\"https://doc.rust-lang.org/nightly/std/primitive.usize.html\">usize</a>&gt;&gt; for <a class=\"struct\" href=\"bytes/buf/struct.UninitSlice.html\" title=\"struct bytes::buf::UninitSlice\">UninitSlice</a>"),
    ("synthetic", JsVal.boolean false),
    ("types", JsVal.arr [JsVal.str "bytes::buf::uninit_slice::UninitSlice"])],
  JsVal.obj [("text", JsVal.str "impl <a class=\"trait\" href=\"https://doc.rust-lang.org/nightly/core/ops/index/trait.Index.html\" title=\"trait core::ops::index::Index\">Index</a>&lt;<a class=\"struct\" href=\"https://doc.rust-lang.org/nightly/core/ops/range/struct.RangeToInclusive.html\" title=\"struct core::ops::range::RangeToInclusive\">RangeToInclusive</a>&lt;<a class=\"primitive\" href=\"https://doc.rust-lang.org/nightly/std/primitive.usize.html\">usize</a>&gt;&gt; for <a class=\"struct\" href=\"bytes/buf/struct.UninitSlice.html\" title=\"struct bytes::buf::UninitSlice\">UninitSlice</a>"),
    ("synthetic", JsVal.boolean false),
    ("types", JsVal.arr [JsVal.str "bytes::buf::uninit_slice::UninitSlice"])]
]

/-- The array literal assigned to the key "hashbrown" in the source. -/
def hashbrownRecords : List JsVal := [
  JsVal.obj [("text", JsVal.str "impl&lt;K, Q:&nbsp;?<a class=\"trait\" href=\"https://doc.rust-lang.org/nightly/core/marker/trait.Sized.html\" title=\"trait core::marker::Sized\">Sized</a>, V, S&gt; <a class=\"trait\" href=\"https://doc.rust-lang.org/nightly/core/ops/index/trait.Index.html\" title=\"trait core::ops::index::Index\">Index</a>&lt;&amp;\x27_ Q&gt; for <a class=\"struct\" href=\"hashbrown/hash_map/struct.HashMap.html\" title=\"struct hashbrown::hash_map::HashMap\">HashMap</a>&lt;K, V, S&gt; <span class=\"where fmt-newline\">where<br>&nbsp;&nbsp;&nbsp;&nbsp;K: <a class=\"trait\" href=\"https://doc.rust-lang.org/nightly/core/cmp/trait.Eq.html\" title=\"trait core::cmp::Eq\">Eq</a> + <a class=\"trait\" href=\"https://doc.rust-lang.org/nightly/core/hash/trait.Hash.html\" title=\"trait core::hash::Hash\">Hash</a> + <a class=\"trait\" href=\"https://doc.rust-lang.org/nightly/core/borrow/trait.Borrow.html\" title=\"trait core::borrow::Borrow\">Borrow</a>&lt;Q&gt;,<br>&nbsp;&nbsp;&nbsp;&nbsp;Q: <a class=\"trait\" href=\"https://doc.rust-lang.org/nightly/core/cmp/trait.Eq.html\" title=\"trait core::cmp::Eq\">Eq</a> + <a class=\"trait\" href=\"https://doc.rust-lang.org/nightly/core/hash/trait.Hash.html\" title=\"trait core::hash::Hash\">Hash</a>,<br>&nbsp;&nbsp;&nbsp;&nbsp;S: <a class=\"trait\" href=\"https://doc.rust-lang.org/nightly/core/hash/trait.BuildHasher.html\" title=\"trait core::hash::BuildHasher\">BuildHasher</a>,&nbsp;</span>"),
    ("synthetic", JsVal.boolean false),
    ("types", JsVal.arr [JsVal.str "hashbrown::map::HashMap"])]
]

/-- The array literal assigned to the key "http" in the source. -/
def httpRecords : List JsVal := [
  JsVal.obj [("text", JsVal.str "impl&lt;\x27a, K, T&gt; <a class=\"trait\" href=\"https://doc.rust-lang.org/nightly/core/ops/index/trait.Index.html\" title=\"trait core::ops::index::Index\">Index</a>&lt;K&gt; for <a class=\"struct\" href=\"http/header/struct.HeaderMap.html\" title=\"struct http::header::HeaderMap\">HeaderMap</a>&lt;T&gt; <span class=\"where fmt-newline\">where<br>&nbsp;&nbsp;&nbsp;&nbsp;K: <a class=\"trait\" href=\"http/header/trait.AsHeaderName.html\" title=\"trait http::header::AsHeaderName\">AsHeaderName</a>,&nbsp;</span>"),
    ("synthetic", JsVal.boolean false),
    ("types", JsVal.arr [JsVal.str "http::header::map::HeaderMap"])]
]

/-- The array literal assigned to the key "indexmap" in the source. -/
def indexmapRecords : List JsVal := [
  JsVal.obj [("text", JsVal.str "impl&lt;K, V, Q:&nbsp;?<a class=\"trait\" href=\"https://doc.rust-lang.org/nightly/core/marker/trait.Sized.html\" title=\"trait core::marker::Sized\">Sized</a>, S&gt; <a class=\"trait\" href=\"https://doc.rust-lang.org/nightly/core/ops/index/trait.Index.html\" title=\"trait core::ops::index::Index\">Index</a>&lt;<a class=\"primitive\" href=\"https://doc.rust-lang.org/nightly/std/primitive.reference.html\">&amp;\x27_ </a>Q&gt; for <a class=\"struct\" href=\"indexmap/map/struct.IndexMap.html\" title=\"struct indexmap::map::IndexMap\">IndexMap</a>&lt;K, V, S&gt; <span class=\"where fmt-newline\">where<br>&nbsp;&nbsp;&nbsp;&nbsp;Q: <a class=\"trait\" href=\"https://doc.rust-lang.org/nightly/core/hash/trait.Hash.html\" title=\"trait core::hash::Hash\">Hash</a> + <a class=\"trait\" href=\"indexmap/trait.Equivalent.html\" title=\"trait indexmap::Equivalent\">Equivalent</a>&lt;K&gt;,<br>&nbsp;&nbsp;&nbsp;&nbsp;K: <a class=\"trait\" href=\"https://doc.rust-lang.org/nightly/core/hash/trait.Hash.html\" title=\"trait core::hash::Hash\">Hash</a> + <a class=\"trait\" href=\"https://doc.rust-lang.org/nightly/core/cmp/trait.Eq.html\" title=\"trait core::cmp::Eq\">Eq</a>,<br>&nbsp;&nbsp;&nbsp;&nbsp;S: <a class=\"trait\" href=\"https://doc.rust-lang.org/nightly/core/hash/trait.BuildHasher.html\" title=\"trait core::hash::BuildHasher\">BuildHasher</a>,&nbsp;</span>"),
    ("synthetic", JsVal.boolean false),
    ("types", JsVal.arr [JsVal.str "indexmap::map::IndexMap"])],
  JsVal.obj [("text", JsVal.str "impl&lt;K, V, S&gt; <a class=\"trait\" href=\"https://doc.rust-lang.org/nightly/core/ops/index/trait.Index.html\" title=\"trait core::ops::index::Index\">Index</a>&lt;<a class=\"primitive\" href=\"https://doc.rust-lang.org/nightly/std/primitive.usize.html\">usize</a>&gt; for <a class=\"struct\" href=\"indexmap/map/struct.IndexMap.html\" title=\"struct indexmap::map::IndexMap\">IndexMap</a>&lt;K, V, S&gt;"),
    ("synthetic", JsVal.boolean false),
    ("types", JsVal.arr [JsVal.str "indexmap::map::IndexMap"])],
  JsVal.obj [("text", JsVal.str "impl&lt;T, S&gt; <a class=\"trait\" href=\"https://doc.rust-lang.org/nightly/core/ops/index/trait.Index.html\" title=\"trait core::ops::index::Index\">Index</a>&lt;<a class=\"primitive\" href=\"https://doc.rust-lang.org/nightly/std/primitive.usize.html\">usize</a>&gt; for <a class=\"struct\" href=\"indexmap/set/struct.IndexSet.html\" title=\"struct indexmap::set::IndexSet\">IndexSet</a>&lt;T, S&gt;"),
    ("synthetic", JsVal.boolean false),
    ("types", JsVal.arr [JsVal.str "indexmap::set::IndexSet"])]
]

/-- The array literal assigned to the key "openssl" in the source. -/
def opensslRecords : List JsVal := [
  JsVal.obj [("text", JsVal.str "impl&lt;T:&nbsp;<a class=\"trait\" href=\"openssl/stack/trait.Stackable.html\" title=\"trait openssl::stack::Stackable\">Stackable</a>&gt; <a class=\"trait\" href=\"https://doc.rust-lang.org/nightly/core/ops/index/trait.Index.html\" title=\"trait core::ops::index::Index\">Index</a>&lt;<a class=\"primitive\" href=\"https://doc.rust-lang.org/nightly/std/primitive.usize.html\">usize</a>&gt; for <a class=\"struct\" href=\"openssl/stack/struct.StackRef.html\" title=\"struct openssl::stack::StackRef\">StackRef</a>&lt;T&gt;"),
    ("synthetic", JsVal.boolean false),
    ("types", JsVal.arr [JsVal.str "openssl::stack::StackRef"])]
]

/-- The array literal assigned to the key "slab" in the source. -/
def slabRecords : List JsVal := [
  JsVal.obj [("text", JsVal.str "impl&lt;T&gt; <a class=\"trait\" href=\"https://doc.rust-lang.org/nightly/core/ops/index/trait.Index.html\" title=\"trait core::ops::index::Index\">Index</a>&lt;<a class=\"primitive\" href=\"https://doc.rust-lang.org/nightly/std/primitive.usize.html\">usize</a>&gt; for <a class=\"struct\" href=\"slab/struct.Slab.html\" title=\"struct slab::Slab\">Slab</a>&lt;T&gt;"),
    ("synthetic", JsVal.boolean false),
    ("types", JsVal.arr [JsVal.str "slab::Slab"])]
]

/-- The array literal assigned to the key "syn" in the source. -/
def synRecords : List JsVal := [
  JsVal.obj [("text", JsVal.str "impl&lt;T, P&gt; <a class=\"trait\" href=\"https://doc.rust-lang.org/nightly/core/ops/index/trait.Index.html\" title=\"trait core::ops::index::Index\">Index</a>&lt;<a class=\"primitive\" href=\"https://doc.rust-lang.org/nightly/std/primitive.usize.html\">usize</a>&gt; for <a class=\"struct\" href=\"syn/punctuated/struct.Punctuated.html\" title=\"struct syn::punctuated::Punctuated\">Punctuated</a>&lt;T, P&gt;"),
    ("synthetic", JsVal.boolean false),
    ("types", JsVal.arr [JsVal.str "syn::punctuated::Punctuated"])]
]

/-- The array literal assigned to the key "tinyvec" in the source. -/
def tinyvecRecords : List JsVal := [
  JsVal.obj [("text", JsVal.str "impl&lt;A:&nbsp;<a class=\"trait\" href=\"tinyvec/trait.Array.html\" title=\"trait tinyvec::Array\">Array</a>, I:&nbsp;<a class=\"trait\" href=\"https://doc.rust-lang.org/nightly/core/slice/index/trait.SliceIndex.html\" title=\"trait core::slice::index::SliceIndex\">SliceIndex</a>&lt;[A::<a class=\"type\" href=\"tinyvec/trait.Array.html#associatedtype.Item\" title=\"type tinyvec::Array::Item\">Item</a>]&gt;&gt; <a class=\"trait\" href=\"https://doc.rust-lang.org/nightly/core/ops/index/trait.Index.html\" title=\"trait core::ops::index::Index\">Index</a>&lt;I&gt; for <a class=\"struct\" href=\"tinyvec/struct.ArrayVec.html\" title=\"struct tinyvec::ArrayVec\">ArrayVec</a>&lt;A&gt;"),
    ("synthetic", JsVal.boolean false),
    ("types", JsVal.arr [JsVal.str "tinyvec::arrayvec::ArrayVec"])],
  JsVal.obj [("text", JsVal.str "impl&lt;\x27s, T, I&gt; <a class=\"trait\" href=\"https://doc.rust-lang.org/nightly/core/ops/index/trait.Index.html\" title=\"trait core::ops::index::Index\">Index</a>&lt;I&gt; for <a class=\"struct\" href=\"tinyvec/struct.SliceVec.html\" title=\"struct tinyvec::SliceVec\">SliceVec</a>&lt;\x27s, T&gt; <span class=\"where fmt-newline\">where<br>&nbsp;&nbsp;&nbsp;&nbsp;I: <a class=\"trait\" href=\"https://doc.rust-lang.org/nightly/core/slice/index/trait.SliceIndex.html\" title=\"trait core::slice::index::SliceIndex\">SliceIndex</a>&lt;[T]&gt;,&nbsp;</span>"),
    ("synthetic", JsVal.boolean false),
    ("types", JsVal.arr [JsVal.str "tinyvec::slicevec::SliceVec"])],
  JsVal.obj [("text", JsVal.str "impl&lt;A:&nbsp;<a class=\"trait\" href=\"tinyvec/trait.Array.html\" title=\"trait tinyvec::Array\">Array</a>, I:&nbsp;<a class=\"trait\" href=\"https://doc.rust-lang.org/nightly/core/slice/index/trait.SliceIndex.html\" title=\"trait core::slice::index::SliceIndex\">SliceIndex</a>&lt;[A::<a class=\"type\" href=\"tinyvec/trait.Array.html#associatedtype.Item\" title=\"type tinyvec::Array::Item\">Item</a>]&gt;&gt; <a class=\"trait\" href=\"https://doc.rust-lang.org/nightly/core/ops/index/trait.Index.html\" title=\"trait core::ops::index::Index\">Index</a>&lt;I&gt; for <a class=\"enum\" href=\"tinyvec/enum.TinyVec.html\" title=\"enum tinyvec::TinyVec\">TinyVec</a>&lt;A&gt;"),
    ("synthetic", JsVal.boolean false),
    ("types", JsVal.arr [JsVal.str "tinyvec::tinyvec::TinyVec"])]
]

/-- The array literal assigned to the key "url" in the source. -/
def urlRecords : List JsVal := [
  JsVal.obj [("text", JsVal.str "impl <a class=\"trait\" href=\"https://doc.rust-lang.org/nightly/core/ops/index/trait.Index.html\" title=\"trait core::ops::index::Index\">Index</a>&lt;<a class=\"struct\" href=\"https://doc.rust-lang.org/nightly/core/ops/range/struct.RangeFull.html\" title=\"struct core::ops::range::RangeFull\">RangeFull</a>&gt; for <a class=\"struct\" href=\"url/struct.Url.html\" title=\"struct url::Url\">Url</a>"),
    ("synthetic", JsVal.boolean false),
    ("types", JsVal.arr [JsVal.str "url::Url"])],
  JsVal.obj [("text", JsVal.str "impl <a class=\"trait\" href=\"https://doc.rust-lang.org/nightly/core/ops/index/trait.Index.html\" title=\"trait core::ops::index::Index\">Index</a>&lt;<a class=\"struct\" href=\"https://doc.rust-lang.org/nightly/core/ops/range/struct.RangeFrom.html\" title=\"struct core::ops::range::RangeFrom\">RangeFrom</a>&lt;<a class=\"enum\" href=\"url/enum.Position.html\" title=\"enum url::Position\">Position</a>&gt;&gt; for <a class=\"struct\" href=\"url/struct.Url.html\" title=\"struct url::Url\">Url</a>"),
    ("synthetic", JsVal.boolean false),
    ("types", JsVal.arr [JsVal.str "url::Url"])],
  JsVal.obj [("text", JsVal.str "impl <a class=\"trait\" href=\"https://doc.rust-lang.org/nightly/core/ops/index/trait.Index.html\" title=\"trait core::ops::index::Index\">Index</a>&lt;<a class=\"struct\" href=\"https://doc.rust-lang.org/nightly/core/ops/range/struct.RangeTo.html\" title=\"struct core::ops::range::RangeTo\">RangeTo</a>&lt;<a class=\"enum\" href=\"url/enum.Position.html\" title=\"enum url::Position\">Position</a>&gt;&gt; for <a class=\"struct\" href=\"url/struct.Url.html\" title=\"struct url::Url\">Url</a>"),
    ("synthetic", JsVal.boolean false),
    ("types", JsVal.arr [JsVal.str "url::Url"])],
  JsVal.obj [("text", JsVal.str "impl <a class=\"trait\" href=\"https://doc.rust-lang.org/nightly/core/ops/index/trait.Index.html\" title=\"trait core::ops::index::Index\">Index</a>&lt;<a class=\"struct\" href=\"https://doc.rust-lang.org/nightly/core/ops/range/struct.Range.html\" title=\"struct core::ops::range::Range\">Range</a>&lt;<a class=\"enum\" href=\"url/enum.Position.html\" title=\"enum url::Position\">Position</a>&gt;&gt; for <a class=\"struct\" href=\"url/struct.Url.html\" title=\"struct url::Url\">Url</a>"),
    ("synthetic", JsVal.boolean false),
    ("types", JsVal.arr [JsVal.str "url::Url"])]
]

/-- JavaScript property assignment `m[k] = v` on an insertion-ordered
object: overwrite in place when the key is already present, otherwise
append the new key at the end. -/
def setKey (m : List (String × JsVal)) (k : String) (v : JsVal) :
    List (String × JsVal) :=
  if m.any (fun kv => kv.1 == k) then
    m.map (fun kv => if kv.1 == k then (k, v) else kv)
  else m ++ [(k, v)]

/-- The object built by `var implementors = ...` (the empty object literal)
followed by the nine property assignments, in source order. -/
def implementors : List (String × JsVal) :=
  setKey (setKey (setKey (setKey (setKey (setKey (setKey (setKey (setKey []
    "bytes" (JsVal.arr bytesRecords))
    "hashbrown" (JsVal.arr hashbrownRecords))
    "http" (JsVal.arr httpRecords))
    "indexmap" (JsVal.arr indexmapRecords))
    "openssl" (JsVal.arr opensslRecords))
    "slab" (JsVal.arr slabRecords))
    "syn" (JsVal.arr synRecords))
    "tinyvec" (JsVal.arr tinyvecRecords))
    "url" (JsVal.arr urlRecords)

/-- JavaScript truthiness of a `JsVal`: the empty string and `false` are
falsy; every array and object is truthy. -/
def JsVal.truthy : JsVal → Bool
  | .str s => s != ""
  | .boolean b => b
  | .arr _ => true
  | .obj _ => true

/-- A global binding on `window`: either a callable function value, or a
plain data value. -/
inductive GlobalVal where
  | jsFunc : GlobalVal
  | data : JsVal → GlobalVal

/-- Truthiness of a global binding: functions are truthy, data values have
their JavaScript truthiness. -/
def GlobalVal.truthy : GlobalVal → Bool
  | .jsFunc => true
  | .data v => v.truthy

/-- The global `window` environment, with the two slots the artifact reads
or writes modelled explicitly and all other globals kept abstract. -/
structure Window where
  register_implementors : Option GlobalVal
  pending_implementors : Option GlobalVal
  others : List (String × GlobalVal)

/-- Whether the condition `window.register_implementors` of the artifact's
`if` evaluates to a truthy value: a missing property reads as `undefined`,
which is falsy. -/
def Window.hookTruthy (w : Window) : Bool :=
  match w.register_implementors with
  | some g => g.truthy
  | none => false

/-- One execution of the artifact's immediately-invoked function: after the
data literal is built, `if (window.register_implementors)` either calls the
hook with the mapping as its single argument or assigns the mapping to
`window.pending_implementors`. The result is the updated window paired with
the list of arguments passed to the hook; calling a truthy non-function
raises a `TypeError`. -/
def loadStep (w : Window) : Except String (Window × List JsVal) :=
  match w.register_implementors with
  | some g =>
    if g.truthy then
      match g with
      | .jsFunc => .ok (w, [JsVal.obj implementors])
      | .data _ => .error "TypeError: window.register_implementors is not a function"
    else
      .ok ({ w with pending_implementors := some (.data (JsVal.obj implementors)) }, [])
  | none =>
    .ok ({ w with pending_implementors := some (.data (JsVal.obj implementors)) }, [])

/-- Field names of a record object, in literal order. -/
def recordFields : JsVal → List String
  | .obj kvs => kvs.map Prod.fst
  | _ => []

/-- Look up a field of a record object by name (first occurrence). -/
def fieldValue : JsVal → String → Option JsVal
  | .obj kvs, k => (kvs.find? (fun kv => kv.1 == k)).map Prod.snd
  | _, _ => none

/-- All records of all libraries of the mapping, in mapping order. -/
def allRecords : List JsVal :=
  implementors.foldr
    (fun kv acc => match kv.2 with | .arr rs => rs ++ acc | _ => acc) []

/-- Whether the needle character list occurs at the head of the hay. -/
def leadsWith : List Char → List Char → Bool
  | [], _ => true
  | _ :: _, [] => false
  | a :: as, b :: bs => a == b && leadsWith as bs

/-- Whether the needle character list occurs anywhere inside the hay. -/
def occursIn (needle : List Char) : List Char → Bool
  | [] => leadsWith needle []
  | b :: bs => leadsWith needle (b :: bs) || occursIn needle bs

/-- Whether a markup string names the fully-qualified indexing trait
`core::ops::index::Index`. -/
def mentionsIndexTrait (s : String) : Bool :=
  occursIn "core::ops::index::Index".toList s.toList

/-- The markup string of a record (its "text" field), or the empty string
when the field is missing or not a string. -/
def recordText (r : JsVal) : String :=
  match fieldValue r "text" with
  | some (.str s) => s
  | _ => ""

/-- Whether a value is a string. -/
def JsVal.isStr : JsVal → Bool
  | .str _ => true
  | _ => false

/-- Whether a value is a non-empty array. -/
def JsVal.isNonEmptyArr : JsVal → Bool
  | .arr rs => !rs.isEmpty
  | _ => false

/-- Well-formedness of a record as the spec describes it: its "text" field
is a string and its "types" field is an array of strings. -/
def wellFormedRecord (r : JsVal) : Bool :=
  (match fieldValue r "text" with | some (.str _) => true | _ => false) &&
  (match fieldValue r "types" with
   | some (.arr ts) => ts.all JsVal.isStr
   | _ => false)

/-- Whether a record's "synthetic" field is present and equal to `false`. -/
def syntheticIsFalse (r : JsVal) : Bool :=
  match fieldValue r "synthetic" with
  | some (.boolean b) => !b
  | _ => false

/-- The number of entries of a record's "types" array, when present. -/
def typesCount (r : JsVal) : Option Nat :=
  match fieldValue r "types" with
  | some (.arr ts) => some ts.length
  | _ => none

/-- A window whose registration hook is installed as a function. -/
def wHook : Window := ⟨some GlobalVal.jsFunc, none, []⟩

/-- A window with no registration hook installed. -/
def wNoHook : Window := ⟨none, none, []⟩

/-- A second window with the hook installed and unrelated global state. -/
def wHookB : Window :=
  ⟨some GlobalVal.jsFunc, some (GlobalVal.data (JsVal.boolean true)),
    [("other_slot", GlobalVal.data (JsVal.str "x"))]⟩

/-- The window after the else branch: the mapping assigned to the slot
`window.pending_implementors`, everything else unchanged. -/
def stash (w : Window) : Window :=
  { w with pending_implementors := some (GlobalVal.data (JsVal.obj implementors)) }

theorem loadStep_cases (w : Window) (r : Window × List JsVal)
    (h : loadStep w = Except.ok r) :
    (w.hookTruthy = true ∧ r = (w, [JsVal.obj implementors])) ∨
    (w.hookTruthy = false ∧ r = (stash w, [])) := by
  obtain ⟨reg, pend, oth⟩ := w
  cases reg with
  | none => exact Or.inr ⟨rfl, (Except.ok.inj h).symm⟩
  | some g =>
    cases g with
    | jsFunc => exact Or.inl ⟨rfl, (Except.ok.inj h).symm⟩
    | data v =>
      replace h :
          (if v.truthy then
            (Except.error "TypeError: window.register_implementors is not a function" :
              Except String (Window × List JsVal))
          else Except.ok (stash ⟨some (GlobalVal.data v), pend, oth⟩, [])) =
            Except.ok r := h
      cases hv : v.truthy with
      | true =>
        rw [hv] at h
        exact Except.noConfusion h
      | false =>
        rw [hv] at h
        exact Or.inr ⟨hv, (Except.ok.inj h).symm⟩

/-- C1: in every successful execution of the load step exactly one of the
two effects occurs: when the condition on `window.register_implementors`
holds, the mapping is passed to the hook in a single call and the pending
slot is not written; otherwise the mapping is stored in
`window.pending_implementors` and no call is made. -/
theorem C1_exactly_one_effect (w : Window) (r : Window × List JsVal)
    (h : loadStep w = Except.ok r) :
    (w.hookTruthy = true ∧ r.2 = [JsVal.obj implementors] ∧
      r.1.pending_implementors = w.pending_implementors) ∨
    (w.hookTruthy = false ∧ r.2 = [] ∧
      r.1.pending_implementors = some (GlobalVal.data (JsVal.obj implementors))) := by
  rcases loadStep_cases w r h with ⟨ht, hr⟩ | ⟨ht, hr⟩ <;> subst hr
  · exact Or.inl ⟨ht, rfl, rfl⟩
  · exact Or.inr ⟨ht, rfl, rfl⟩

/-- Witness for C1 at a window whose registration hook is a function. -/
theorem C1_witness :
    (wHook.hookTruthy = true ∧
      (wHook, [JsVal.obj implementors]).2 = [JsVal.obj implementors] ∧
      (wHook, [JsVal.obj implementors]).1.pending_implementors =
        wHook.pending_implementors) ∨
    (wHook.hookTruthy = false ∧
      (wHook, [JsVal.obj implementors]).2 = [] ∧
      (wHook, [JsVal.obj implementors]).1.pending_implementors =
        some (GlobalVal.data (JsVal.obj implementors))) :=
  C1_exactly_one_effect wHook (wHook, [JsVal.obj implementors]) rfl

/-- C2, as stated, is false: the records do not carry exactly the two
fields "text" and "types"; the first record already carries the extra field
"synthetic". -/
theorem C2_counterexample :
    (allRecords.all (fun r => recordFields r == ["text", "types"])) = false ∧
    allRecords.head?.map recordFields = some ["text", "synthetic", "types"] := by
  decide

/-- C2 (amended): every record of the mapping carries exactly three
fields, in order "text" (the markup string), "synthetic" (a boolean flag)
and "types" (the list of fully-qualified type-path strings). -/
theorem C2_amended_fields :
    allRecords.all
      (fun r => recordFields r == ["text", "synthetic", "types"]) = true := by
  decide

/-- C3: the keys of the constructed mapping are exactly the nine library
identifiers, in source order, and every markup string of every record names
the fully-qualified indexing trait core::ops::index::Index. -/
theorem C3_keys_and_trait :
    implementors.map Prod.fst =
      ["bytes", "hashbrown", "http", "indexmap", "openssl", "slab", "syn",
       "tinyvec", "url"] ∧
    allRecords.all (fun r => mentionsIndexTrait (recordText r)) = true := by
  constructor
  · decide
  · decide

/-- C4: the mapping handed over or stashed is exactly the mapping built by
the data literal: the construction by successive property assignments
equals the literal association list, every value passed to the hook is that
mapping, and the stashed value is that mapping. -/
theorem C4_no_mutation (w : Window) (r : Window × List JsVal)
    (h : loadStep w = Except.ok r) :
    implementors =
      [("bytes", JsVal.arr bytesRecords), ("hashbrown", JsVal.arr hashbrownRecords),
       ("http", JsVal.arr httpRecords), ("indexmap", JsVal.arr indexmapRecords),
       ("openssl", JsVal.arr opensslRecords), ("slab", JsVal.arr slabRecords),
       ("syn", JsVal.arr synRecords), ("tinyvec", JsVal.arr tinyvecRecords),
       ("url", JsVal.arr urlRecords)] ∧
    (∀ v ∈ r.2, v = JsVal.obj implementors) ∧
    (r.2 = [] → r.1.pending_implementors =
      some (GlobalVal.data (JsVal.obj implementors))) := by
  refine ⟨rfl, ?_, ?_⟩ <;>
    rcases loadStep_cases w r h with ⟨ht, hr⟩ | ⟨ht, hr⟩ <;> subst hr <;> simp [stash]

/-- Witness for C4 at a window with no registration hook. -/
theorem C4_witness :
    implementors =
      [("bytes", JsVal.arr bytesRecords), ("hashbrown", JsVal.arr hashbrownRecords),
       ("http", JsVal.arr httpRecords), ("indexmap", JsVal.arr indexmapRecords),
       ("openssl", JsVal.arr opensslRecords), ("slab", JsVal.arr slabRecords),
       ("syn", JsVal.arr synRecords), ("tinyvec", JsVal.arr tinyvecRecords),
       ("url", JsVal.arr urlRecords)] ∧
    (∀ v ∈ (stash wNoHook, ([] : List JsVal)).2, v = JsVal.obj implementors) ∧
    ((stash wNoHook, ([] : List JsVal)).2 = [] →
      (stash wNoHook, ([] : List JsVal)).1.pending_implementors =
        some (GlobalVal.data (JsVal.obj implementors))) :=
  C4_no_mutation wNoHook (stash wNoHook, []) rfl

/-- C5: the load step writes no global other than
`window.pending_implementors`: the hook slot and all other globals are
unchanged, and when the hook condition holds the whole window is unchanged. -/
theorem C5_only_pending_written (w : Window) (r : Window × List JsVal)
    (h : loadStep w = Except.ok r) :
    r.1.register_implementors = w.register_implementors ∧
    r.1.others = w.others ∧
    (w.hookTruthy = true → r.1 = w) := by
  rcases loadStep_cases w r h with ⟨ht, hr⟩ | ⟨ht, hr⟩ <;> subst hr
  · exact ⟨rfl, rfl, fun _ => rfl⟩
  · exact ⟨rfl, rfl, fun hx => Bool.noConfusion (ht.symm.trans hx)⟩

/-- Witness for C5 at a window with no registration hook. -/
theorem C5_witness :
    (stash wNoHook, ([] : List JsVal)).1.register_implementors =
      wNoHook.register_implementors ∧
    (stash wNoHook, ([] : List JsVal)).1.others = wNoHook.others ∧
    (wNoHook.hookTruthy = true →
      (stash wNoHook, ([] : List JsVal)).1 = wNoHook) :=
  C5_only_pending_written wNoHook (stash wNoHook, []) rfl

/-- C6: when `window.register_implementors` is absent or is a function, the
load step completes without raising an error. -/
theorem C6_no_runtime_error (w : Window)
    (h : w.register_implementors = none ∨
         w.register_implementors = some GlobalVal.jsFunc) :
    ∃ r, loadStep w = Except.ok r := by
  rcases h with h | h
  · exact ⟨(stash w, []), by simp [loadStep, stash, h]⟩
  · exact ⟨(w, [JsVal.obj implementors]), by simp [loadStep, h, GlobalVal.truthy]⟩

/-- Witness for C6 at a window with no registration hook. -/
theorem C6_witness : ∃ r, loadStep wNoHook = Except.ok r :=
  C6_no_runtime_error wNoHook (Or.inl rfl)

/-- C7: every value of the mapping is a non-empty array, every record has a
string "text" field, and every element of every record's "types" array is a
string; keys are strings by construction of the embedding. -/
theorem C7_well_formed :
    implementors.all (fun kv => JsVal.isNonEmptyArr kv.2) = true ∧
    allRecords.all wellFormedRecord = true := by
  constructor
  · decide
  · decide

/-- C8: every record's "synthetic" field is present and equal to false. -/
theorem C8_synthetic_false :
    allRecords.all syntheticIsFalse = true := by
  decide

/-- C9: every record's "types" array contains exactly one type-path
string. -/
theorem C9_single_type :
    allRecords.all (fun r => typesCount r == some 1) = true := by
  decide

/-- C10: the effect of the load step depends only on the truthiness of
`window.register_implementors`: two successful executions in windows that
agree on that condition make the same hook calls, and when they stash they
stash the same value. -/
theorem C10_deterministic (w1 w2 : Window) (r1 r2 : Window × List JsVal)
    (hb : w1.hookTruthy = w2.hookTruthy)
    (h1 : loadStep w1 = Except.ok r1) (h2 : loadStep w2 = Except.ok r2) :
    r1.2 = r2.2 ∧
    (r1.2 = [] → r1.1.pending_implementors = r2.1.pending_implementors) := by
  rcases loadStep_cases w1 r1 h1 with ⟨t1, e1⟩ | ⟨t1, e1⟩ <;>
    rcases loadStep_cases w2 r2 h2 with ⟨t2, e2⟩ | ⟨t2, e2⟩
  · exact ⟨by rw [e1, e2], by rw [e1]; simp⟩
  · rw [t1, t2] at hb; exact absurd hb (by simp)
  · rw [t1, t2] at hb; exact absurd hb (by simp)
  · exact ⟨by rw [e1, e2], fun _ => by rw [e1, e2]; rfl⟩

/-- Witness for C10 at two windows that both have the hook installed but
differ in all other global state. -/
theorem C10_witness :
    (wHook, [JsVal.obj implementors]).2 = (wHookB, [JsVal.obj implementors]).2 ∧
    ((wHook, [JsVal.obj implementors]).2 = [] →
      (wHook, [JsVal.obj implementors]).1.pending_implementors =
        (wHookB, [JsVal.obj implementors]).1.pending_implementors) :=
  C10_deterministic wHook wHookB (wHook, [JsVal.obj implementors])
    (wHookB, [JsVal.obj implementors]) rfl rfl rfl
